import Mathlib

/-!
Verification of the on-chain habit tracker contract
(`contract/habit/build/habit/sources/contract.move`, module `habit::contract`).

The Move module is shallowly embedded: machine integers (`u64`, `u8`) are
modelled as `Nat` with Move's aborting arithmetic made explicit
(`subU64`/`addU64`/`mulU64` return `Except MoveAbort Nat` and abort on
underflow/overflow past `2 ^ 64`, exactly as Move's checked arithmetic does);
addresses and object ids are modelled as `Nat`; `vector<u8>` note payloads are
modelled by the `String` they decode to (the empty vector is the empty string);
Move's transactional abort semantics are modelled by returning
`Except MoveAbort …`, an `error` leaving every on-chain record unchanged.
Event emission is modelled as an output list, in emission order.
-/

namespace HabitContract

/-- Error code `E_ALREADY_CHECKED_IN` (contract.move line 25). -/
def E_ALREADY_CHECKED_IN : Nat := 1

/-- Error code `E_NOT_OWNER` (contract.move line 26). -/
def E_NOT_OWNER : Nat := 2

/-- Error code `E_INVALID_DATE` (contract.move line 27). -/
def E_INVALID_DATE : Nat := 3

/-- Error code `E_INVALID_GOAL_TYPE` (contract.move line 28). -/
def E_INVALID_GOAL_TYPE : Nat := 4

/-- `GOAL_TYPE_MONTHLY` (contract.move line 30). -/
def GOAL_TYPE_MONTHLY : Nat := 2

/-- `MS_PER_DAY = 86400000` (contract.move line 32). -/
def MS_PER_DAY : Nat := 86400000

/-- `2 ^ 64`, one past the largest `u64` value. -/
def U64_MOD : Nat := 18446744073709551616

/-- A Move abort: either an `assert!`/`abort` with an error code, or an
arithmetic abort (u64 underflow / overflow). -/
inductive MoveAbort where
  | code (c : Nat)
  | arith
  deriving DecidableEq, Repr

/-- Move `u64` subtraction `a - b`: aborts when `b > a`. -/
def subU64 (a b : Nat) : Except MoveAbort Nat :=
  if b ≤ a then Except.ok (a - b) else Except.error MoveAbort.arith

/-- Move `u64` addition `a + b`: aborts when the sum does not fit in 64 bits. -/
def addU64 (a b : Nat) : Except MoveAbort Nat :=
  if a + b < U64_MOD then Except.ok (a + b) else Except.error MoveAbort.arith

/-- Move `u64` multiplication `a * b`: aborts when the product does not fit
in 64 bits. -/
def mulU64 (a b : Nat) : Except MoveAbort Nat :=
  if a * b < U64_MOD then Except.ok (a * b) else Except.error MoveAbort.arith

/-- The `Habit` shared object (contract.move lines 39-53). The `UID` is
modelled as a `Nat` id. -/
structure Habit where
  id : Nat
  owner : Nat
  name : String
  description : String
  emoji : String
  created_at : Nat
  goal_type : Nat
  goal_count : Nat
  total_checkins : Nat
  current_streak : Nat
  longest_streak : Nat
  last_checkin_date : Option Nat
  is_public : Bool
  deriving DecidableEq, Repr

/-- The `CheckIn` receipt object (contract.move lines 56-61), transferred to
the caller on every successful check-in. -/
structure CheckIn where
  habit_id : Nat
  date : Nat
  notes : Option String
  deriving DecidableEq, Repr

/-- The five event kinds emitted by the module (contract.move lines 67-91). -/
inductive Event where
  | HabitCreated (habit_id : Nat) (owner : Nat) (name : String)
  | CheckInRecorded (habit_id : Nat) (date : Nat) (new_streak : Nat)
      (total_checkins : Nat)
  | StreakBroken (habit_id : Nat) (previous_streak : Nat)
  | HabitUpdated (habit_id : Nat)
  | HabitDeleted (habit_id : Nat)
  deriving DecidableEq, Repr

/-- `true` exactly on `StreakBroken` events. -/
def Event.isStreakBroken : Event → Bool
  | Event.StreakBroken _ _ => true
  | _ => false

/-- `get_date_timestamp` (contract.move lines 343-346): round a millisecond
timestamp down to the start of its epoch day. The subtraction cannot
underflow since `t % MS_PER_DAY ≤ t`. -/
def get_date_timestamp (timestamp_ms : Nat) : Nat :=
  timestamp_ms - timestamp_ms % MS_PER_DAY

/-- `create_habit` (contract.move lines 99-137). `id` is the freshly
allocated object id, `sender` the transaction sender, `now` the epoch
timestamp supplied by the host. Returns the shared `Habit` and the emitted
events. -/
def create_habit (id : Nat) (sender : Nat) (name description emoji : String)
    (goal_type : Nat) (goal_count : Nat) (is_public : Bool) (now : Nat) :
    Except MoveAbort (Habit × List Event) :=
  if goal_type ≤ GOAL_TYPE_MONTHLY then
    let habit : Habit :=
      { id := id
        owner := sender
        name := name
        description := description
        emoji := emoji
        created_at := now
        goal_type := goal_type
        goal_count := goal_count
        total_checkins := 0
        current_streak := 0
        longest_streak := 0
        last_checkin_date := none
        is_public := is_public }
    Except.ok (habit, [Event.HabitCreated id sender name])
  else Except.error (MoveAbort.code E_INVALID_GOAL_TYPE)

/-- The streak-update branch of `check_in` (contract.move lines 158-182),
given the already-computed `yesterday`. Returns the habit with
`current_streak` (and possibly `longest_streak`) updated, together with any
`StreakBroken` event emitted in the branch. -/
def checkin_streak (h : Habit) (yesterday : Nat) :
    Except MoveAbort (Habit × List Event) :=
  match h.last_checkin_date with
  | some last_date =>
    if last_date = yesterday then
      match addU64 h.current_streak 1 with
      | Except.ok s => Except.ok ({ h with current_streak := s }, [])
      | Except.error e => Except.error e
    else if last_date < yesterday then
      let h1 := if h.current_streak > h.longest_streak
        then { h with longest_streak := h.current_streak } else h
      let previous_streak := h1.current_streak
      Except.ok ({ h1 with current_streak := 1 },
        [Event.StreakBroken h.id previous_streak])
    else Except.error (MoveAbort.code E_INVALID_DATE)
  | none => Except.ok ({ h with current_streak := 1 }, [])

/-- The already-checked-in guard of `check_in` (contract.move lines 150-153):
`last_checkin_date` is present and equals today's day id. -/
def already_checked_in (last_checkin_date : Option Nat) (today : Nat) : Bool :=
  match last_checkin_date with
  | some last_date => last_date == today
  | none => false

/-- `check_in` (contract.move lines 141-214). `now` is the epoch timestamp
supplied by the host. On success returns the updated habit, the `CheckIn`
receipt transferred to the caller, and the emitted events in order; on abort
the whole transaction rolls back and no record changes. -/
def check_in (h : Habit) (notes : String) (now : Nat) :
    Except MoveAbort (Habit × CheckIn × List Event) :=
  let today := get_date_timestamp now
  if already_checked_in h.last_checkin_date today then
    Except.error (MoveAbort.code E_ALREADY_CHECKED_IN)
  else
    match subU64 today MS_PER_DAY with
    | Except.error e => Except.error e
    | Except.ok yesterday =>
      match checkin_streak h yesterday with
      | Except.error e => Except.error e
      | Except.ok (h1, evs1) =>
        match addU64 h1.total_checkins 1 with
        | Except.error e => Except.error e
        | Except.ok tc =>
          let h2 := { h1 with total_checkins := tc,
                              last_checkin_date := some today }
          let h3 := if h2.current_streak > h2.longest_streak
            then { h2 with longest_streak := h2.current_streak } else h2
          let notes_option := if 0 < notes.length then some notes else none
          let receipt : CheckIn :=
            { habit_id := h.id, date := today, notes := notes_option }
          Except.ok (h3, receipt,
            evs1 ++ [Event.CheckInRecorded h.id today h3.current_streak
              h3.total_checkins])

/-- `update_habit` (contract.move lines 217-253). Fields are applied in
source order; the `goal_type` validation aborts the whole transaction, which
in Move rolls back every earlier field write, so an error leaves the habit
unchanged. -/
def update_habit (h : Habit) (sender : Nat)
    (name description emoji : Option String) (goal_type_arg : Option Nat)
    (goal_count_arg : Option Nat) (is_public_arg : Option Bool) :
    Except MoveAbort (Habit × List Event) :=
  if h.owner = sender then
    let h1 := match name with
      | some v => { h with name := v }
      | none => h
    let h2 := match description with
      | some v => { h1 with description := v }
      | none => h1
    let h3 := match emoji with
      | some v => { h2 with emoji := v }
      | none => h2
    match
      (match goal_type_arg with
       | some gt =>
         if gt ≤ GOAL_TYPE_MONTHLY then Except.ok { h3 with goal_type := gt }
         else Except.error (MoveAbort.code E_INVALID_GOAL_TYPE)
       | none => Except.ok h3) with
    | Except.error e => Except.error e
    | Except.ok h4 =>
      let h5 := match goal_count_arg with
        | some v => { h4 with goal_count := v }
        | none => h4
      let h6 := match is_public_arg with
        | some v => { h5 with is_public := v }
        | none => h5
      Except.ok (h6, [Event.HabitUpdated h6.id])
  else Except.error (MoveAbort.code E_NOT_OWNER)

/-- `delete_habit` (contract.move lines 256-266): owner-only removal of the
record; on success the record is gone and a `HabitDeleted` event is
emitted. -/
def delete_habit (h : Habit) (sender : Nat) : Except MoveAbort (List Event) :=
  if h.owner = sender then Except.ok [Event.HabitDeleted h.id]
  else Except.error (MoveAbort.code E_NOT_OWNER)

/-- `get_habit_info` (contract.move lines 273-299): the 11-tuple the source
actually returns (owner, name, description, emoji, created_at, goal_type,
goal_count, total_checkins, current_streak, longest_streak, is_public). -/
def get_habit_info (h : Habit) :
    Nat × String × String × String × Nat × Nat × Nat × Nat × Nat × Nat ×
      Bool :=
  (h.owner, h.name, h.description, h.emoji, h.created_at, h.goal_type,
   h.goal_count, h.total_checkins, h.current_streak, h.longest_streak,
   h.is_public)

/-- Modelled from the spec: the projection §4.6 and claim C10 describe,
"tuple of all fields except `last_checkin_date`", which per the §3 field list
includes `id`. To be compared with the source's `get_habit_info`, which
omits `id`. -/
def spec_habit_info (h : Habit) :
    Nat × Nat × String × String × String × Nat × Nat × Nat × Nat × Nat ×
      Nat × Bool :=
  (h.id, h.owner, h.name, h.description, h.emoji, h.created_at, h.goal_type,
   h.goal_count, h.total_checkins, h.current_streak, h.longest_streak,
   h.is_public)

/-- `get_completion_rate` (contract.move lines 303-322). Both `u64`
multiplications can abort on overflow. -/
def get_completion_rate (h : Habit) (period_days : Nat) :
    Except MoveAbort Nat :=
  if h.total_checkins = 0 ∨ period_days = 0 then Except.ok 0
  else
    match mulU64 period_days h.goal_count with
    | Except.error e => Except.error e
    | Except.ok expected =>
      if expected = 0 then Except.ok 0
      else
        match mulU64 h.total_checkins 100 with
        | Except.error e => Except.error e
        | Except.ok num =>
          let rate := num / expected
          if rate > 100 then Except.ok 100 else Except.ok rate

/-- `can_check_in_today` (contract.move lines 325-335). -/
def can_check_in_today (h : Habit) (now : Nat) : Bool :=
  let today := get_date_timestamp now
  match h.last_checkin_date with
  | some last_date => last_date != today
  | none => true

/-- `get_days_since_creation` (contract.move lines 349-359). -/
def get_days_since_creation (h : Habit) (now : Nat) : Nat :=
  let created := get_date_timestamp h.created_at
  let current := get_date_timestamp now
  if current < created then 0 else (current - created) / MS_PER_DAY

/-- One client call against a (possibly already deleted) habit record:
`create_habit` initialises a run, so a trace is the created habit followed by
a list of these operations. -/
inductive Op where
  | checkin (notes : String) (now : Nat)
  | update (sender : Nat) (name description emoji : Option String)
      (goal_type_arg goal_count_arg : Option Nat)
      (is_public_arg : Option Bool)
  | delete (sender : Nat)
  deriving DecidableEq, Repr

/-- Apply one operation to the record state (`none` = record deleted).
A Move abort rolls the transaction back, so a failed operation leaves the
state unchanged and transfers no receipt. Returns the new state and the
`CheckIn` receipts transferred by the operation. -/
def applyOp (s : Option Habit) (op : Op) : Option Habit × List CheckIn :=
  match s with
  | none => (none, [])
  | some h =>
    match op with
    | Op.checkin notes now =>
      match check_in h notes now with
      | Except.ok (h', r, _) => (some h', [r])
      | Except.error _ => (some h, [])
    | Op.update sender name description emoji gt gc pub =>
      match update_habit h sender name description emoji gt gc pub with
      | Except.ok (h', _) => (some h', [])
      | Except.error _ => (some h, [])
    | Op.delete sender =>
      match delete_habit h sender with
      | Except.ok _ => (none, [])
      | Except.error _ => (some h, [])

/-- Run a list of operations, accumulating the transferred receipts. -/
def runOps (s : Option Habit) (ops : List Op) : Option Habit × List CheckIn :=
  match ops with
  | [] => (s, [])
  | op :: rest =>
    let step := applyOp s op
    let tail := runOps step.1 rest
    (tail.1, step.2 ++ tail.2)

/-- Number of operations in the list that are `check_in` calls completing
successfully when run from state `s`. -/
def countCheckinSuccesses (s : Option Habit) (ops : List Op) : Nat :=
  match ops with
  | [] => 0
  | op :: rest =>
    let here : Nat :=
      match s, op with
      | some h, Op.checkin notes now =>
        match check_in h notes now with
        | Except.ok _ => 1
        | Except.error _ => 0
      | _, _ => 0
    here + countCheckinSuccesses (applyOp s op).1 rest

/-- The habit states reachable through the contract's own entry points:
a state freshly produced by `create_habit`, or the successful image of a
reachable state under `check_in` or `update_habit`. -/
inductive Reachable : Habit → Prop where
  | created (id sender : Nat) (name description emoji : String)
      (goal_type goal_count : Nat) (is_public : Bool) (now : Nat)
      (h : Habit) (evs : List Event)
      (hok : create_habit id sender name description emoji goal_type
        goal_count is_public now = Except.ok (h, evs)) : Reachable h
  | checked_in (h : Habit) (notes : String) (now : Nat) (h' : Habit)
      (r : CheckIn) (evs : List Event) (hr : Reachable h)
      (hok : check_in h notes now = Except.ok (h', r, evs)) : Reachable h'
  | updated (h : Habit) (sender : Nat)
      (name description emoji : Option String)
      (gt gc : Option Nat) (pub : Option Bool) (h' : Habit)
      (evs : List Event) (hr : Reachable h)
      (hok : update_habit h sender name description emoji gt gc pub =
        Except.ok (h', evs)) : Reachable h'

/-- A freshly created daily habit (the output of
`create_habit 1 7 "run" "daily run" "R" 0 1 true 0`), used as a concrete
test state. -/
def habitA : Habit :=
  { id := 1
    owner := 7
    name := "run"
    description := "daily run"
    emoji := "R"
    created_at := 0
    goal_type := 0
    goal_count := 1
    total_checkins := 0
    current_streak := 0
    longest_streak := 0
    last_checkin_date := none
    is_public := true }

/-- `habitA` after one successful check-in on epoch day 1
(`now = 86400000`). -/
def habitA1 : Habit :=
  { habitA with
    total_checkins := 1
    current_streak := 1
    longest_streak := 1
    last_checkin_date := some 86400000 }

/-- A habit with an established 3-day streak whose last check-in was on
epoch day 3. -/
def habitB : Habit :=
  { id := 4
    owner := 9
    name := "gym"
    description := "lift"
    emoji := "G"
    created_at := 0
    goal_type := 0
    goal_count := 1
    total_checkins := 3
    current_streak := 3
    longest_streak := 3
    last_checkin_date := some 259200000
    is_public := false }

/-- `habitB` after a streak-breaking check-in on epoch day 6
(`now = 518400000`). -/
def habitB2 : Habit :=
  { habitB with
    total_checkins := 4
    current_streak := 1
    last_checkin_date := some 518400000 }

/-- A fresh habit used for the same-day-pair counterexample. -/
def habitC : Habit :=
  { id := 5
    owner := 11
    name := "read"
    description := "ten pages"
    emoji := "B"
    created_at := 0
    goal_type := 0
    goal_count := 1
    total_checkins := 0
    current_streak := 0
    longest_streak := 0
    last_checkin_date := none
    is_public := true }

/-- A habit whose `period_days * goal_count` product overflows `u64` for
`period_days = 2 ^ 32`. -/
def habitD : Habit :=
  { id := 6
    owner := 3
    name := "cr"
    description := "d"
    emoji := "e"
    created_at := 0
    goal_type := 0
    goal_count := 4294967296
    total_checkins := 1
    current_streak := 0
    longest_streak := 0
    last_checkin_date := none
    is_public := true }

/-- A habit with 50 lifetime check-ins and `goal_count = 1`, for the
completion-rate witness. -/
def habitE : Habit :=
  { id := 8
    owner := 2
    name := "walk"
    description := "steps"
    emoji := "W"
    created_at := 0
    goal_type := 0
    goal_count := 1
    total_checkins := 50
    current_streak := 2
    longest_streak := 5
    last_checkin_date := some 86400000
    is_public := false }

/-- Two habits that differ only in their `id` field. -/
def habitF1 : Habit :=
  { id := 21
    owner := 7
    name := "a"
    description := "b"
    emoji := "c"
    created_at := 0
    goal_type := 0
    goal_count := 1
    total_checkins := 0
    current_streak := 0
    longest_streak := 0
    last_checkin_date := none
    is_public := true }

/-- The same record as `habitF1` with a different `id`. -/
def habitF2 : Habit :=
  { habitF1 with id := 22 }

-- ============================================================
-- Helper lemmas
-- ============================================================

lemma addU64_ok {a b c : Nat} (h : addU64 a b = Except.ok c) : c = a + b := by
  unfold addU64 at h
  split at h
  · exact (Except.ok.injEq _ _).mp h |>.symm
  · exact absurd h (by simp)

lemma subU64_ok {a b c : Nat} (h : subU64 a b = Except.ok c) :
    b ≤ a ∧ c = a - b := by
  unfold subU64 at h
  split at h
  · exact ⟨by assumption, ((Except.ok.injEq _ _).mp h).symm⟩
  · exact absurd h (by simp)

lemma subU64_underflow {a b : Nat} (h : a < b) :
    subU64 a b = Except.error MoveAbort.arith := by
  unfold subU64
  rw [if_neg (by omega)]

/-- Day bucketing of a timestamp inside the first epoch day is day 0. -/
lemma get_date_timestamp_day0 {now : Nat} (h : now < MS_PER_DAY) :
    get_date_timestamp now = 0 := by
  unfold get_date_timestamp
  rw [Nat.mod_eq_of_lt h, Nat.sub_self]

lemma addU64_error {a b : Nat} {e : MoveAbort}
    (h : addU64 a b = Except.error e) : e = MoveAbort.arith := by
  unfold addU64 at h
  split at h
  · exact absurd h (by simp)
  · simpa using h.symm

lemma subU64_error {a b : Nat} {e : MoveAbort}
    (h : subU64 a b = Except.error e) : e = MoveAbort.arith := by
  unfold subU64 at h
  split at h
  · exact absurd h (by simp)
  · simpa using h.symm

lemma mulU64_ok {a b c : Nat} (h : mulU64 a b = Except.ok c) :
    c = a * b ∧ a * b < U64_MOD := by
  unfold mulU64 at h
  split at h
  · exact ⟨((Except.ok.injEq _ _).mp h).symm, by assumption⟩
  · exact absurd h (by simp)

/-- An aborting streak branch aborts with `E_INVALID_DATE` or an arithmetic
abort, never with `E_ALREADY_CHECKED_IN`. -/
lemma checkin_streak_error {h : Habit} {y : Nat} {e : MoveAbort}
    (he : checkin_streak h y = Except.error e) :
    e = MoveAbort.code E_INVALID_DATE ∨ e = MoveAbort.arith := by
  unfold checkin_streak at he
  split at he
  · split at he
    · split at he
      · exact absurd he (by simp)
      · rename_i e1 hadd
        simp only [Except.error.injEq] at he
        subst he
        exact Or.inr (addU64_error hadd)
    · split at he
      · exact absurd he (by simp)
      · simp only [Except.error.injEq] at he
        exact Or.inl he.symm
  · exact absurd he (by simp)

/-- `can_check_in_today` is the negation of the already-checked-in guard. -/
lemma can_iff_guard (h : Habit) (now : Nat) :
    can_check_in_today h now =
      !already_checked_in h.last_checkin_date (get_date_timestamp now) := by
  unfold can_check_in_today already_checked_in
  cases h.last_checkin_date <;> rfl

/-- Once the record is deleted, no operation applies. -/
lemma runOps_none (ops : List Op) : runOps none ops = (none, []) := by
  induction ops with
  | nil => rfl
  | cons op rest ih => simp [runOps, applyOp, ih]

/-- Structural facts about a successful streak-branch update: counters other
than the streak fields are untouched, and `longest_streak` never drops. -/
lemma checkin_streak_ok {h h1 : Habit} {y : Nat} {evs : List Event}
    (hok : checkin_streak h y = Except.ok (h1, evs)) :
    h1.total_checkins = h.total_checkins ∧
    h.longest_streak ≤ h1.longest_streak ∧
    h1.id = h.id ∧ h1.owner = h.owner := by
  unfold checkin_streak at hok
  split at hok
  · split at hok
    · split at hok
      · simp only [Except.ok.injEq, Prod.mk.injEq] at hok
        obtain ⟨hh, -⟩ := hok
        subst hh
        simp
      · exact absurd hok (by simp)
    · split at hok
      · split at hok
        · simp only [Except.ok.injEq, Prod.mk.injEq] at hok
          obtain ⟨hh, -⟩ := hok
          subst hh
          simp
          omega
        · simp only [Except.ok.injEq, Prod.mk.injEq] at hok
          obtain ⟨hh, -⟩ := hok
          subst hh
          simp
      · exact absurd hok (by simp)
  · simp only [Except.ok.injEq, Prod.mk.injEq] at hok
    obtain ⟨hh, -⟩ := hok
    subst hh
    simp

/-- Structural facts about a successful `check_in`: `total_checkins` goes up
by exactly one, `longest_streak` never drops, and the post-state satisfies
the invariant `current_streak ≤ longest_streak`. -/
lemma check_in_ok_fields {h h' : Habit} {notes : String} {now : Nat}
    {r : CheckIn} {evs : List Event}
    (hok : check_in h notes now = Except.ok (h', r, evs)) :
    h'.total_checkins = h.total_checkins + 1 ∧
    h.longest_streak ≤ h'.longest_streak ∧
    h'.current_streak ≤ h'.longest_streak ∧
    h'.id = h.id ∧ h'.owner = h.owner ∧
    h'.last_checkin_date = some (get_date_timestamp now) := by
  simp only [check_in] at hok
  cases hal : already_checked_in h.last_checkin_date (get_date_timestamp now) with
  | true =>
    rw [hal] at hok
    simp at hok
  | false =>
    rw [hal] at hok
    simp only [Bool.false_eq_true, if_false] at hok
    cases hsub : subU64 (get_date_timestamp now) MS_PER_DAY with
    | error e =>
      rw [hsub] at hok
      simp at hok
    | ok yesterday =>
      rw [hsub] at hok
      simp only [] at hok
      cases hcs : checkin_streak h yesterday with
      | error e =>
        rw [hcs] at hok
        simp at hok
      | ok p =>
        obtain ⟨h1, evs1⟩ := p
        rw [hcs] at hok
        simp only [] at hok
        cases hadd : addU64 h1.total_checkins 1 with
        | error e =>
          rw [hadd] at hok
          simp at hok
        | ok tc =>
          rw [hadd] at hok
          simp only [] at hok
          rcases checkin_streak_ok hcs with ⟨ht, hl, hid, hown⟩
          have htc := addU64_ok hadd
          simp only [Except.ok.injEq, Prod.mk.injEq] at hok
          obtain ⟨hh, -, -⟩ := hok
          subst hh
          constructor
          · split <;> simp [htc, ht]
          constructor
          · split
            · rename_i hgt
              simp only [gt_iff_lt] at hgt
              simp at hgt ⊢
              omega
            · simp
              omega
          constructor
          · split
            · simp
            · rename_i hgt
              simp only [gt_iff_lt, not_lt] at hgt
              simpa using hgt
          constructor
          · split <;> simpa using hid
          constructor
          · split <;> simpa using hown
          · split <;> rfl

/-- A successful `update_habit` leaves every counter and streak field, the
id, the owner and `last_checkin_date` unchanged. -/
lemma update_habit_ok_fields {h h' : Habit} {sender : Nat}
    {name description emoji : Option String} {gt gc : Option Nat}
    {pub : Option Bool} {evs : List Event}
    (hok : update_habit h sender name description emoji gt gc pub =
      Except.ok (h', evs)) :
    h'.total_checkins = h.total_checkins ∧
    h'.current_streak = h.current_streak ∧
    h'.longest_streak = h.longest_streak ∧
    h'.id = h.id ∧ h'.owner = h.owner ∧
    h'.last_checkin_date = h.last_checkin_date := by
  unfold update_habit at hok
  by_cases hown : h.owner = sender
  · rw [if_pos hown] at hok
    cases gt with
    | none =>
      cases name <;> cases description <;> cases emoji <;> cases gc <;>
        cases pub <;>
        simp only [Except.ok.injEq, Prod.mk.injEq] at hok <;>
        obtain ⟨hh, -⟩ := hok <;> subst hh <;> simp
    | some g =>
      simp only [] at hok
      by_cases hg : g ≤ GOAL_TYPE_MONTHLY
      · rw [if_pos hg] at hok
        cases name <;> cases description <;> cases emoji <;> cases gc <;>
          cases pub <;>
          simp only [Except.ok.injEq, Prod.mk.injEq] at hok <;>
          obtain ⟨hh, -⟩ := hok <;> subst hh <;> simp
      · rw [if_neg hg] at hok
        simp at hok
  · rw [if_neg hown] at hok
    exact absurd hok (by simp)

-- ============================================================
-- Claim theorems
-- ============================================================

/-- Claim C1: the spec scenario opens with a check-in at timestamp 0 on a
fresh daily habit and expects it to succeed (`current_streak = 1` after it,
3 after days 0-2); the code instead aborts that very first check-in with a
u64 underflow computing `yesterday = today - MS_PER_DAY`, so the scenario
cannot begin. This theorem evaluates the code at the failing input. -/
theorem c1_scenario_day0_checkin_aborts :
    create_habit 1 7 "run" "daily run" "R" 0 1 true 0 =
      Except.ok (habitA, [Event.HabitCreated 1 7 "run"]) ∧
    check_in habitA "" 0 = Except.error MoveAbort.arith := by
  constructor <;> rfl

/-- Claim C2: for every habit and timestamp inside epoch day 0 on which the
already-checked-in guard does not fire, `check_in` aborts with the u64
underflow in `yesterday = today - MS_PER_DAY`; in particular no first-ever
check-in (where the specified algorithm would set the streak to 1) can
succeed on day 0. -/
theorem c2_day0_checkin_underflow (h : Habit) (notes : String) (now : Nat)
    (hday : now < MS_PER_DAY)
    (hguard : ∀ d, h.last_checkin_date = some d → d ≠ 0) :
    check_in h notes now = Except.error MoveAbort.arith := by
  have ht : get_date_timestamp now = 0 := get_date_timestamp_day0 hday
  have hg : already_checked_in h.last_checkin_date
      (get_date_timestamp now) = false := by
    rw [ht]
    unfold already_checked_in
    cases hld : h.last_checkin_date with
    | some d => simpa using hguard d hld
    | none => rfl
  have hsub : subU64 (get_date_timestamp now) MS_PER_DAY =
      Except.error MoveAbort.arith := by
    rw [ht]
    exact subU64_underflow (by norm_num [MS_PER_DAY])
  simp [check_in, hg, hsub]

/-- Witness for C2 at the concrete input `habitA`, `now = 0`. -/
theorem c2_day0_checkin_underflow_witness :
    (0 : Nat) < MS_PER_DAY ∧
    (∀ d, habitA.last_checkin_date = some d → d ≠ 0) ∧
    check_in habitA "gm" 0 = Except.error MoveAbort.arith :=
  ⟨by norm_num [MS_PER_DAY],
   fun d hd => absurd hd (by simp [habitA]),
   c2_day0_checkin_underflow habitA "gm" 0 (by norm_num [MS_PER_DAY])
     (fun d hd => absurd hd (by simp [habitA]))⟩

/-- Claim C7: `update_habit` and `delete_habit` called by any non-owner
fail with `E_NOT_OWNER`; the abort rolls the transaction back, so the habit
record is untouched and no event is emitted. -/
theorem c7_owner_gating (h : Habit) (sender : Nat)
    (name description emoji : Option String) (gt gc : Option Nat)
    (pub : Option Bool) (hne : sender ≠ h.owner) :
    update_habit h sender name description emoji gt gc pub =
      Except.error (MoveAbort.code E_NOT_OWNER) ∧
    delete_habit h sender = Except.error (MoveAbort.code E_NOT_OWNER) := by
  constructor
  · unfold update_habit
    rw [if_neg fun hsw => hne hsw.symm]
  · unfold delete_habit
    rw [if_neg fun hsw => hne hsw.symm]

/-- Witness for C7: caller 999 is not `habitA`'s owner (7). -/
theorem c7_owner_gating_witness :
    (999 : Nat) ≠ habitA.owner ∧
    update_habit habitA 999 (some "x") none none none none none =
      Except.error (MoveAbort.code E_NOT_OWNER) ∧
    delete_habit habitA 999 = Except.error (MoveAbort.code E_NOT_OWNER) :=
  ⟨by decide,
   (c7_owner_gating habitA 999 (some "x") none none none none none
     (by decide)).1,
   (c7_owner_gating habitA 999 (some "x") none none none none none
     (by decide)).2⟩

/-- Claim C8: an owner update supplying `goal_type > 2` aborts with
`E_INVALID_GOAL_TYPE`; the Move abort rolls back the whole transaction, so
the name/description/emoji writes evaluated earlier in source order are
also undone, every field keeps its pre-call value, and no `HabitUpdated`
event is emitted. -/
theorem c8_update_invalid_goal_type (h : Habit) (sender : Nat)
    (name description emoji : Option String) (g : Nat) (gc : Option Nat)
    (pub : Option Bool) (hown : h.owner = sender)
    (hg : GOAL_TYPE_MONTHLY < g) :
    update_habit h sender name description emoji (some g) gc pub =
      Except.error (MoveAbort.code E_INVALID_GOAL_TYPE) := by
  have hng : ¬ g ≤ GOAL_TYPE_MONTHLY := by omega
  unfold update_habit
  rw [if_pos hown]
  simp [hng]

/-- Witness for C8 at a concrete owner update with `goal_type = 5`. -/
theorem c8_update_invalid_goal_type_witness :
    habitA.owner = 7 ∧ GOAL_TYPE_MONTHLY < 5 ∧
    update_habit habitA 7 (some "renamed") (some "d2") (some "E") (some 5)
      (some 2) (some false) =
      Except.error (MoveAbort.code E_INVALID_GOAL_TYPE) :=
  ⟨rfl, by decide,
   c8_update_invalid_goal_type habitA 7 (some "renamed") (some "d2")
     (some "E") 5 (some 2) (some false) rfl (by decide)⟩

/-- Claim C9 counterexample: `get_completion_rate` does not return a value
for every u64 input — with `total_checkins = 1`, `goal_count = 2 ^ 32` and
`period_days = 2 ^ 32` the `period_days * goal_count` multiplication
overflows u64 and the call aborts instead of returning a value in
`[0, 100]`. -/
theorem c9_completion_rate_overflow_counterexample :
    get_completion_rate habitD 4294967296 = Except.error MoveAbort.arith := by
  rfl

/-- Claim C10 counterexample: two habits that differ only in `id` have equal
`get_habit_info` projections, so the returned tuple does not contain the
`id` field, contradicting "all fields except last_checkin_date" (the §3
field list includes `id`). -/
theorem c10_info_omits_id_counterexample :
    get_habit_info habitF1 = get_habit_info habitF2 ∧
    habitF1.id ≠ habitF2.id :=
  ⟨rfl, by decide⟩

/-- Claim C10 amended: `get_habit_info` returns every stored field except
`id` and `last_checkin_date`, each component equal to the stored field, with
no mutation and no failure possible (it is a pure total projection);
equivalently, the projection the spec describes (all fields but
`last_checkin_date`) is exactly the code's tuple with the `id` prepended. -/
theorem c10_info_projection (h : Habit) :
    get_habit_info h =
      (h.owner, h.name, h.description, h.emoji, h.created_at, h.goal_type,
       h.goal_count, h.total_checkins, h.current_streak, h.longest_streak,
       h.is_public) ∧
    spec_habit_info h = (h.id, get_habit_info h) :=
  ⟨rfl, rfl⟩

/-- Claim C3: `current_streak ≤ longest_streak` holds in every reachable
habit state: it is established by `create_habit` (both counters zero) and
preserved by every completed `check_in` and `update_habit`; a completed
delete leaves no state behind, so there is nothing to preserve. -/
theorem c3_streak_invariant (h : Habit) (hr : Reachable h) :
    h.current_streak ≤ h.longest_streak := by
  induction hr with
  | created id sender name description emoji gt gc pub now h0 evs hok =>
    unfold create_habit at hok
    split at hok
    · simp only [Except.ok.injEq, Prod.mk.injEq] at hok
      obtain ⟨hh, -⟩ := hok
      subst hh
      simp
    · exact absurd hok (by simp)
  | checked_in h1 notes now h2 r evs hr hok ih =>
    exact (check_in_ok_fields hok).2.2.1
  | updated h1 sender n d e gt gc pub h2 evs hr hok ih =>
    rcases update_habit_ok_fields hok with ⟨-, hc, hl, -⟩
    rw [hc, hl]
    exact ih

/-- Witness for C3: `habitA` is reachable (freshly created) and satisfies
the invariant. -/
theorem c3_streak_invariant_witness :
    Reachable habitA ∧
    habitA.current_streak ≤ habitA.longest_streak :=
  have hre : Reachable habitA :=
    Reachable.created 1 7 "run" "daily run" "R" 0 1 true 0 habitA
      [Event.HabitCreated 1 7 "run"] rfl
  ⟨hre, c3_streak_invariant habitA hre⟩

/-- Claim C4: with an established streak `n ≥ 1`, a successful check-in
whose day id is strictly greater than `last_checkin_date + MS_PER_DAY`
resets `current_streak` to 1, sets `longest_streak` to
`max longest_streak n`, and emits exactly one `StreakBroken` event whose
`previous_streak` equals `n`, the pre-transition streak. -/
theorem c4_streak_break (h : Habit) (notes : String) (now : Nat)
    (n last : Nat) (h' : Habit) (r : CheckIn) (evs : List Event)
    (hlast : h.last_checkin_date = some last)
    (hn : h.current_streak = n) (hn1 : 1 ≤ n)
    (hgap : last + MS_PER_DAY < get_date_timestamp now)
    (hok : check_in h notes now = Except.ok (h', r, evs)) :
    h'.current_streak = 1 ∧
    h'.longest_streak = max h.longest_streak n ∧
    evs.filter Event.isStreakBroken = [Event.StreakBroken h.id n] := by
  have hmspos : 0 < MS_PER_DAY := by norm_num [MS_PER_DAY]
  have hguard : already_checked_in h.last_checkin_date
      (get_date_timestamp now) = false := by
    rw [hlast]
    unfold already_checked_in
    simp only [beq_eq_false_iff_ne, ne_eq]
    omega
  have hms : MS_PER_DAY ≤ get_date_timestamp now := by omega
  have hsub : subU64 (get_date_timestamp now) MS_PER_DAY =
      Except.ok (get_date_timestamp now - MS_PER_DAY) := by
    unfold subU64
    rw [if_pos hms]
  have hlt : last < get_date_timestamp now - MS_PER_DAY := by omega
  by_cases hbr : h.current_streak > h.longest_streak
  · have hcs : checkin_streak h (get_date_timestamp now - MS_PER_DAY) =
        Except.ok
          ({ h with
              longest_streak := h.current_streak
              current_streak := 1 },
            [Event.StreakBroken h.id h.current_streak]) := by
      unfold checkin_streak
      simp only [hlast]
      rw [if_neg (by omega), if_pos hlt, if_pos hbr]
    simp only [check_in, hguard, Bool.false_eq_true, if_false, hsub,
      hcs] at hok
    cases hadd : addU64 h.total_checkins 1 with
    | error e =>
      rw [hadd] at hok
      simp at hok
    | ok tc =>
      rw [hadd] at hok
      simp only [] at hok
      simp only [Except.ok.injEq, Prod.mk.injEq] at hok
      obtain ⟨hh, -, hevs⟩ := hok
      subst hh
      subst hevs
      refine ⟨?_, ?_, ?_⟩
      · split <;> rfl
      · split
        · rename_i hcond
          exfalso
          simp at hcond
          omega
        · simp
          omega
      · simp [Event.isStreakBroken, hn]
  · have hcs : checkin_streak h (get_date_timestamp now - MS_PER_DAY) =
        Except.ok
          ({ h with current_streak := 1 },
            [Event.StreakBroken h.id h.current_streak]) := by
      unfold checkin_streak
      simp only [hlast]
      rw [if_neg (by omega), if_pos hlt, if_neg hbr]
      rw [hlast]
    simp only [check_in, hguard, Bool.false_eq_true, if_false, hsub,
      hcs] at hok
    cases hadd : addU64 h.total_checkins 1 with
    | error e =>
      rw [hadd] at hok
      simp at hok
    | ok tc =>
      rw [hadd] at hok
      simp only [] at hok
      simp only [Except.ok.injEq, Prod.mk.injEq] at hok
      obtain ⟨hh, -, hevs⟩ := hok
      subst hh
      subst hevs
      refine ⟨?_, ?_, ?_⟩
      · split <;> rfl
      · split
        · rename_i hcond
          exfalso
          simp at hcond
          omega
        · simp
          omega
      · simp [Event.isStreakBroken, hn]

/-- Witness for C4: `habitB` (streak 3, last check-in day 3) checked in on
day 6. -/
theorem c4_streak_break_witness :
    habitB.last_checkin_date = some 259200000 ∧
    habitB.current_streak = 3 ∧
    (1 : Nat) ≤ 3 ∧
    259200000 + MS_PER_DAY < get_date_timestamp 518400000 ∧
    check_in habitB "" 518400000 =
      Except.ok (habitB2, ⟨4, 518400000, none⟩,
        [Event.StreakBroken 4 3,
         Event.CheckInRecorded 4 518400000 1 4]) ∧
    (habitB2.current_streak = 1 ∧
     habitB2.longest_streak = max habitB.longest_streak 3 ∧
     List.filter Event.isStreakBroken
       [Event.StreakBroken 4 3, Event.CheckInRecorded 4 518400000 1 4] =
       [Event.StreakBroken habitB.id 3]) :=
  ⟨rfl, rfl, by norm_num, by decide, rfl,
   c4_streak_break habitB "" 518400000 3 259200000 habitB2
     ⟨4, 518400000, none⟩
     [Event.StreakBroken 4 3, Event.CheckInRecorded 4 518400000 1 4]
     rfl rfl (by norm_num) (by decide) rfl⟩

/-- Claim C5 counterexample: for a pair of calls on the same day id the
claim asserts the first always succeeds; with both `now` values inside
epoch day 0 the first call instead aborts with the u64 underflow, so the
claim fails as stated. -/
theorem c5_first_call_failure_counterexample :
    get_date_timestamp 0 = get_date_timestamp 43200000 ∧
    check_in habitC "note" 0 = Except.error MoveAbort.arith := by
  constructor <;> rfl

/-- Claim C5 amended: whenever the first of two check-ins on the same day id
succeeds, the second fails with `E_ALREADY_CHECKED_IN` whatever its notes
are (the abort leaves the record unchanged); and in general `check_in`
fails with `E_ALREADY_CHECKED_IN` exactly when `can_check_in_today` is
false. -/
theorem c5_same_day_rejection (h h' : Habit) (notes1 notes2 : String)
    (now1 now2 : Nat) (r : CheckIn) (evs : List Event)
    (hday : get_date_timestamp now1 = get_date_timestamp now2)
    (hok : check_in h notes1 now1 = Except.ok (h', r, evs)) :
    check_in h' notes2 now2 =
      Except.error (MoveAbort.code E_ALREADY_CHECKED_IN) ∧
    ∀ (g : Habit) (nn : String) (now : Nat),
      check_in g nn now =
          Except.error (MoveAbort.code E_ALREADY_CHECKED_IN) ↔
        can_check_in_today g now = false := by
  have hlast : h'.last_checkin_date = some (get_date_timestamp now1) :=
    (check_in_ok_fields hok).2.2.2.2.2
  have main : ∀ (g : Habit) (nn : String) (now : Nat),
      check_in g nn now =
          Except.error (MoveAbort.code E_ALREADY_CHECKED_IN) ↔
        can_check_in_today g now = false := by
    intro g nn now
    constructor
    · intro he
      rw [can_iff_guard]
      cases hal : already_checked_in g.last_checkin_date
          (get_date_timestamp now) with
      | true => rfl
      | false =>
        exfalso
        simp only [check_in] at he
        rw [hal] at he
        simp only [Bool.false_eq_true, if_false] at he
        cases hsub : subU64 (get_date_timestamp now) MS_PER_DAY with
        | error e =>
          rw [hsub] at he
          simp only [] at he
          have he2 : e = MoveAbort.code E_ALREADY_CHECKED_IN := by
            simpa using he
          rw [subU64_error hsub] at he2
          simp at he2
        | ok yesterday =>
          rw [hsub] at he
          simp only [] at he
          cases hcs : checkin_streak g yesterday with
          | error e =>
            rw [hcs] at he
            simp only [] at he
            have he2 : e = MoveAbort.code E_ALREADY_CHECKED_IN := by
              simpa using he
            rcases checkin_streak_error hcs with h3 | h3 <;>
              rw [h3] at he2 <;>
              simp [E_INVALID_DATE, E_ALREADY_CHECKED_IN] at he2
          | ok p =>
            obtain ⟨g1, evs1⟩ := p
            rw [hcs] at he
            simp only [] at he
            cases hadd : addU64 g1.total_checkins 1 with
            | error e =>
              rw [hadd] at he
              simp only [] at he
              have he2 : e = MoveAbort.code E_ALREADY_CHECKED_IN := by
                simpa using he
              rw [addU64_error hadd] at he2
              simp at he2
            | ok tc =>
              rw [hadd] at he
              simp only [] at he
              exact absurd he (by simp)
    · intro hcan
      rw [can_iff_guard] at hcan
      have hal : already_checked_in g.last_checkin_date
          (get_date_timestamp now) = true := by
        simpa using hcan
      simp [check_in, hal]
  refine ⟨?_, main⟩
  exact (main h' notes2 now2).mpr
    (by simp [can_check_in_today, hlast, hday])

/-- Witness for C5: a successful check-in on day 1 followed by a rejected
second check-in later the same day. -/
theorem c5_same_day_rejection_witness :
    get_date_timestamp 86400000 = get_date_timestamp 86400999 ∧
    check_in habitA "" 86400000 =
      Except.ok (habitA1, ⟨1, 86400000, none⟩,
        [Event.CheckInRecorded 1 86400000 1 1]) ∧
    check_in habitA1 "x" 86400999 =
      Except.error (MoveAbort.code E_ALREADY_CHECKED_IN) :=
  ⟨rfl, rfl,
   (c5_same_day_rejection habitA habitA1 "" "x" 86400000 86400999
     ⟨1, 86400000, none⟩ [Event.CheckInRecorded 1 86400000 1 1]
     rfl rfl).1⟩

/-- Claim C9 amended: whenever `get_completion_rate` returns (its u64
multiplications do not overflow), the value lies in `[0, 100]`; it is 0
when `total_checkins`, `period_days` or `goal_count` is 0, and otherwise
equals `min 100 (total_checkins * 100 / (period_days * goal_count))`. On
overflowing inputs the call aborts instead of returning. -/
theorem c9_completion_rate_bounds (h : Habit) (period_days r : Nat)
    (hok : get_completion_rate h period_days = Except.ok r) :
    r ≤ 100 ∧
    ((h.total_checkins = 0 ∨ period_days = 0 ∨ h.goal_count = 0) →
      r = 0) ∧
    (h.total_checkins ≠ 0 → period_days ≠ 0 → h.goal_count ≠ 0 →
      r = min 100 (h.total_checkins * 100 / (period_days * h.goal_count)))
    := by
  unfold get_completion_rate at hok
  split at hok
  · rename_i hz
    simp only [Except.ok.injEq] at hok
    subst hok
    refine ⟨by omega, fun _ => rfl, ?_⟩
    intro h1 h2 h3
    rcases hz with z | z
    · exact absurd z h1
    · exact absurd z h2
  · rename_i hz
    push_neg at hz
    cases hm1 : mulU64 period_days h.goal_count with
    | error e =>
      rw [hm1] at hok
      simp at hok
    | ok expected =>
      rw [hm1] at hok
      simp only [] at hok
      obtain ⟨hexp, -⟩ := mulU64_ok hm1
      subst hexp
      split at hok
      · rename_i hz0
        simp only [Except.ok.injEq] at hok
        subst hok
        refine ⟨by omega, fun _ => rfl, ?_⟩
        intro h1 h2 h3
        exfalso
        rcases Nat.mul_eq_zero.mp hz0 with z | z
        · exact h2 z
        · exact h3 z
      · rename_i hz0
        cases hm2 : mulU64 h.total_checkins 100 with
        | error e =>
          rw [hm2] at hok
          simp at hok
        | ok num =>
          rw [hm2] at hok
          simp only [] at hok
          obtain ⟨hnum, -⟩ := mulU64_ok hm2
          subst hnum
          split at hok
          · rename_i hrate
            simp only [Except.ok.injEq] at hok
            subst hok
            refine ⟨le_refl 100, ?_, ?_⟩
            · intro hcase
              exfalso
              rcases hcase with z | z | z
              · exact hz.1 z
              · exact hz.2 z
              · exact hz0 (by simp [z])
            · intro h1 h2 h3
              exact (Nat.min_eq_left (Nat.le_of_lt hrate)).symm
          · rename_i hrate
            simp only [Except.ok.injEq] at hok
            subst hok
            refine ⟨Nat.not_lt.mp hrate, ?_, ?_⟩
            · intro hcase
              exfalso
              rcases hcase with z | z | z
              · exact hz.1 z
              · exact hz.2 z
              · exact hz0 (by simp [z])
            · intro h1 h2 h3
              exact (Nat.min_eq_right (Nat.not_lt.mp hrate)).symm

/-- Witness for C9 amended: `habitE` (50 check-ins, goal 1) over a 100-day
period yields exactly 50 percent. -/
theorem c9_completion_rate_bounds_witness :
    get_completion_rate habitE 100 = Except.ok 50 ∧
    ((50 : Nat) ≤ 100 ∧
     ((habitE.total_checkins = 0 ∨ (100 : Nat) = 0 ∨
         habitE.goal_count = 0) → (50 : Nat) = 0) ∧
     (habitE.total_checkins ≠ 0 → (100 : Nat) ≠ 0 →
       habitE.goal_count ≠ 0 →
       (50 : Nat) =
         min 100 (habitE.total_checkins * 100 /
           (100 * habitE.goal_count)))) :=
  ⟨rfl, c9_completion_rate_bounds habitE 100 50 rfl⟩

/-- Claim C6: starting from any live record, running any operation sequence
(check-ins, updates, deletes, each either succeeding or aborting with no
effect) adds exactly one to `total_checkins` per successful check-in — so
`total_checkins` grows by the number of successful `check_in` calls, which
equals the number of `CheckIn` receipts transferred — and `longest_streak`
and `total_checkins` never decrease. Started from `create_habit` (which
zeroes `total_checkins`), `total_checkins` therefore always equals the
number of successful check-ins on the record. -/
theorem c6_counters (h : Habit) (ops : List Op) (h' : Habit)
    (rs : List CheckIn)
    (hrun : runOps (some h) ops = (some h', rs)) :
    h'.total_checkins = h.total_checkins + rs.length ∧
    rs.length = countCheckinSuccesses (some h) ops ∧
    h.longest_streak ≤ h'.longest_streak ∧
    h.total_checkins ≤ h'.total_checkins := by
  induction ops generalizing h rs with
  | nil =>
    simp only [runOps, Prod.mk.injEq, Option.some.injEq] at hrun
    obtain ⟨he, hr⟩ := hrun
    subst he
    subst hr
    simp [countCheckinSuccesses]
  | cons op rest ih =>
    simp only [runOps] at hrun
    cases op with
    | checkin notes now =>
      simp only [applyOp] at hrun
      cases hc : check_in h notes now with
      | ok t =>
        obtain ⟨h1, r1, evs1⟩ := t
        rw [hc] at hrun
        simp only [] at hrun
        cases htail : runOps (some h1) rest with
        | mk s2 rs2 =>
          rw [htail] at hrun
          simp only [Prod.mk.injEq] at hrun
          obtain ⟨hs2, hrs⟩ := hrun
          subst hrs
          have ht2 : runOps (some h1) rest = (some h', rs2) := by
            rw [htail, hs2]
          obtain ⟨t1, t2, t3, t4⟩ := ih h1 rs2 ht2
          obtain ⟨cf1, cf2, -⟩ := check_in_ok_fields hc
          refine ⟨?_, ?_, ?_, ?_⟩
          · simp only [List.length_cons, List.singleton_append]
            omega
          · simp only [countCheckinSuccesses, applyOp, hc,
              List.singleton_append, List.length_cons]
            omega
          · omega
          · omega
      | error e =>
        rw [hc] at hrun
        simp only [] at hrun
        cases htail : runOps (some h) rest with
        | mk s2 rs2 =>
          rw [htail] at hrun
          simp only [Prod.mk.injEq, List.nil_append] at hrun
          obtain ⟨hs2, hrs⟩ := hrun
          have ht2 : runOps (some h) rest = (some h', rs) := by
            rw [htail, hs2, hrs]
          obtain ⟨t1, t2, t3, t4⟩ := ih h rs ht2
          refine ⟨t1, ?_, t3, t4⟩
          simp only [countCheckinSuccesses, applyOp, hc]
          omega
    | update sender name description emoji gt gc pub =>
      simp only [applyOp] at hrun
      cases hu : update_habit h sender name description emoji gt gc pub with
      | ok t =>
        obtain ⟨h1, evs1⟩ := t
        rw [hu] at hrun
        simp only [] at hrun
        cases htail : runOps (some h1) rest with
        | mk s2 rs2 =>
          rw [htail] at hrun
          simp only [Prod.mk.injEq, List.nil_append] at hrun
          obtain ⟨hs2, hrs⟩ := hrun
          have ht2 : runOps (some h1) rest = (some h', rs) := by
            rw [htail, hs2, hrs]
          obtain ⟨t1, t2, t3, t4⟩ := ih h1 rs ht2
          obtain ⟨uf1, -, uf3, -⟩ := update_habit_ok_fields hu
          refine ⟨?_, ?_, ?_, ?_⟩
          · omega
          · simp only [countCheckinSuccesses, applyOp, hu]
            omega
          · omega
          · omega
      | error e =>
        rw [hu] at hrun
        simp only [] at hrun
        cases htail : runOps (some h) rest with
        | mk s2 rs2 =>
          rw [htail] at hrun
          simp only [Prod.mk.injEq, List.nil_append] at hrun
          obtain ⟨hs2, hrs⟩ := hrun
          have ht2 : runOps (some h) rest = (some h', rs) := by
            rw [htail, hs2, hrs]
          obtain ⟨t1, t2, t3, t4⟩ := ih h rs ht2
          refine ⟨t1, ?_, t3, t4⟩
          simp only [countCheckinSuccesses, applyOp, hu]
          omega
    | delete sender =>
      simp only [applyOp] at hrun
      cases hd : delete_habit h sender with
      | ok evs =>
        rw [hd] at hrun
        simp only [] at hrun
        rw [runOps_none] at hrun
        simp at hrun
      | error e =>
        rw [hd] at hrun
        simp only [] at hrun
        cases htail : runOps (some h) rest with
        | mk s2 rs2 =>
          rw [htail] at hrun
          simp only [Prod.mk.injEq, List.nil_append] at hrun
          obtain ⟨hs2, hrs⟩ := hrun
          have ht2 : runOps (some h) rest = (some h', rs) := by
            rw [htail, hs2, hrs]
          obtain ⟨t1, t2, t3, t4⟩ := ih h rs ht2
          refine ⟨t1, ?_, t3, t4⟩
          simp only [countCheckinSuccesses, applyOp, hd]
          omega

/-- Witness for C6: one successful check-in on `habitA`. -/
theorem c6_counters_witness :
    runOps (some habitA) [Op.checkin "" 86400000] =
      (some habitA1, [⟨1, 86400000, none⟩]) ∧
    (habitA1.total_checkins =
       habitA.total_checkins + [(⟨1, 86400000, none⟩ : CheckIn)].length ∧
     [(⟨1, 86400000, none⟩ : CheckIn)].length =
       countCheckinSuccesses (some habitA) [Op.checkin "" 86400000] ∧
     habitA.longest_streak ≤ habitA1.longest_streak ∧
     habitA.total_checkins ≤ habitA1.total_checkins) :=
  ⟨rfl,
   c6_counters habitA [Op.checkin "" 86400000] habitA1
     [⟨1, 86400000, none⟩] rfl⟩

end HabitContract
